import Mathlib

set_option maxRecDepth 4000

/-!
Verification development for the EEG pong blink-detection engine.

The embedding below follows the source of the repository:

The hysteresis detector is the per-sample body of eeg_detector_loop in
app_v3.py (the canonical variant, also present with small variations in
app_v4_bp-filter.py and EEG/blink_detection_v2.py).  Magnitudes, baselines,
thresholds and wall-clock times are modelled as rationals; the Python float
values of the sources are idealised to their decimal values.

The calibration controller is the finish_calibration route of
app_v4_bp-filter.py (identical in detection_analysis.py).

The signal conditioner guard is apply_filters together with its call site in
eeg_detector_loop of app_v3.py.
-/

/-- Detector state of the hysteresis loop of app_v3.eeg_detector_loop:
the blink_active flag and the last_blink_ts timestamp of the most recent
emitted event (0.0 initially, as in the source). -/
structure DetState where
  blink_active : Bool
  last_blink_ts : ℚ
deriving DecidableEq, Repr

/-- One input sample of the core detector step: magnitude m (absolute value of
the filtered combined signal), baseline b (the median of the rolling baseline
window at this sample), and wall-clock time t (time.time() at this sample). -/
structure DetIn where
  m : ℚ
  b : ℚ
  t : ℚ
deriving DecidableEq, Repr

/-- Core per-sample body of app_v3.eeg_detector_loop (lines 159 to 181), run
once the baseline window is full.  Mirrors the source statement by statement:
diff = v_abs - base_level; th_on = th; th_off = th * BLINK_OFF_FACTOR;
over_on = (diff > th_on) and (v_abs > th_on); the event fires (blink_pending
is set and last_event_text updated) only when over_on holds, blink_active is
false and now - last_blink_ts >= cd, in which case blink_active and
last_blink_ts are updated; afterwards, if blink_active and diff < th_off, the
state leaves the blink.  Returns the new state together with whether an event
was emitted on this sample. -/
def detectStep (th cd off : ℚ) (s : DetState) (m b now : ℚ) : DetState × Bool :=
  let diff := m - b
  let th_off := th * off
  let over_on := decide (diff > th) && decide (m > th)
  let fire := over_on && !s.blink_active && decide (now - s.last_blink_ts ≥ cd)
  let s1 := if fire then DetState.mk true now else s
  let s2 := if s1.blink_active && decide (diff < th_off) then
      DetState.mk false s1.last_blink_ts
    else s1
  (s2, fire)

/-- The detector step iterated over a time-ordered list of samples, collecting
the per-sample emission flags. -/
def runDet (th cd off : ℚ) : DetState → List DetIn → DetState × List Bool
  | s, [] => (s, [])
  | s, x :: xs =>
    let p := detectStep th cd off s x.m x.b x.t
    let q := runDet th cd off p.1 xs
    (q.1, p.2 :: q.2)

/-- Appending one value to a collections.deque with maxlen cap: the value is
appended on the right and, when the capacity is exceeded, the oldest entries
are dropped on the left. -/
def pushWin (cap : ℕ) (w : List ℚ) (v : ℚ) : List ℚ :=
  let w2 := w ++ [v]
  if cap < w2.length then w2.drop (w2.length - cap) else w2

/-- Insertion of a value into an ascending list, keeping it ascending. -/
def insertSorted (v : ℚ) : List ℚ → List ℚ
  | [] => [v]
  | x :: xs => if v ≤ x then v :: x :: xs else x :: insertSorted v xs

/-- Ascending insertion sort, used to model the sort inside np.median. -/
def sortAsc (l : List ℚ) : List ℚ := l.foldr insertSorted []

/-- np.median of a list: the middle element of the sorted list for odd length,
the mean of the two middle elements for even length. -/
def npMedian (l : List ℚ) : ℚ :=
  let s := sortAsc l
  let n := l.length
  if n = 0 then 0
  else if n % 2 = 1 then s.getD (n / 2) 0
  else (s.getD (n / 2 - 1) 0 + s.getD (n / 2) 0) / 2

/-- State of the full per-sample loop of app_v3.eeg_detector_loop: the rolling
baseline buffer (baseline_buf, a deque of maxlen baseline_len) together with
the detector state. -/
structure LoopState where
  buf : List ℚ
  det : DetState
deriving DecidableEq, Repr

/-- One input sample of the full loop: absolute magnitude v (one entry of
abs_bx) and wall-clock time t. -/
structure LoopIn where
  v : ℚ
  t : ℚ
deriving DecidableEq, Repr

/-- Full per-sample body of app_v3.eeg_detector_loop (lines 148 to 181):
the magnitude is appended to baseline_buf first; while the buffer holds fewer
than baseline_len (= cap) samples the sample is skipped with no detection
decision (continue); otherwise the baseline is the median of the buffer and
the detector step runs. -/
def loopStep (cap : ℕ) (th cd off : ℚ) (st : LoopState) (x : LoopIn) : LoopState × Bool :=
  let buf2 := pushWin cap st.buf x.v
  if buf2.length < cap then (LoopState.mk buf2 st.det, false)
  else
    let r := detectStep th cd off st.det x.v (npMedian buf2) x.t
    (LoopState.mk buf2 r.1, r.2)

/-- The full loop iterated over a list of samples, collecting the per-sample
emission flags. -/
def runLoop (cap : ℕ) (th cd off : ℚ) : LoopState → List LoopIn → LoopState × List Bool
  | st, [] => (st, [])
  | st, x :: xs =>
    let p := loopStep cap th cd off st x
    let q := runLoop cap th cd off p.1 xs
    (q.1, p.2 :: q.2)

/-- Shared calibration-related state of app_v4_bp-filter.py: the threshold_uv
and cooldown_secs settings and the two collected calibration sample lists
(calibration_readings, keys noise and blinks). -/
structure CalibState where
  threshold_uv : ℚ
  cooldown_secs : ℚ
  noise : List ℚ
  blinks : List ℚ
deriving DecidableEq, Repr

/-- np.mean of a list of rationals. -/
def listMean (l : List ℚ) : ℚ := l.sum / (l.length : ℚ)

/-- Rounding of a rational to the nearest integer with ties to even, the
rounding rule of the Python builtin round. -/
def roundHalfEven (x : ℚ) : ℤ :=
  let f := ⌊x⌋
  let r := x - (f : ℚ)
  if r < 1 / 2 then f
  else if (1 : ℚ) / 2 < r then f + 1
  else if f % 2 = 0 then f else f + 1

/-- Python round(x, 1): round to one decimal place, ties to even. -/
def round1 (x : ℚ) : ℚ := (roundHalfEven (10 * x) : ℚ) / 10

/-- The finish_calibration route of app_v4_bp-filter.py (lines 160 to 174),
identical in detection_analysis.py.  If the blinks list is empty it returns
success False at once, touching nothing.  Otherwise it computes
avg_blink = mean(blinks), avg_noise = mean(noise) when noise is non-empty and
30.0 otherwise, suggested = avg_noise + (avg_blink - avg_noise) * 0.6, sets
threshold_uv to round(suggested, 1), empties both calibration lists and
reports success with the suggested threshold.  The Option result models the
success flag of the JSON response: some models success True with the applied
threshold, none models success False. -/
def finish_calibration (st : CalibState) : CalibState × Option ℚ :=
  if st.blinks = [] then (st, none)
  else
    let avg_blink := listMean st.blinks
    let avg_noise := if st.noise = [] then (30 : ℚ) else listMean st.noise
    let suggested := avg_noise + (avg_blink - avg_noise) * (6 / 10)
    let newTh := round1 suggested
    ({ st with threshold_uv := newTh, noise := [], blinks := [] }, some newTh)

/-- Modelled from the spec: scipy.signal.filtfilt is not part of this
repository.  The spec states that forward-backward filtering needs padding and
hence a minimum window length; filtfilt with an explicit pad length raises a
ValueError unless the window is strictly longer than padlen, and on success
returns an output of the same length as the input.  Represented on window
lengths: none models the raise, some n the successful length-preserving
filtering. -/
def filtfiltLen (padlen n : ℕ) : Option ℕ := if padlen < n then some n else none

/-- app_v3.apply_filters on a window of length n (lines 71 to 79): a notch
filtfilt followed by a band-pass filtfilt, both with padlen=50, applied
unconditionally.  Tracked on window lengths. -/
def apply_filters_v3 (n : ℕ) : Option ℕ :=
  (filtfiltLen 50 n).bind (filtfiltLen 50)

/-- Call-site guard of app_v3.eeg_detector_loop (line 141): the combined chunk
is filtered only when bx.size > 30, otherwise it is kept unfiltered.  Tracked
on window lengths; some n means the conditioning produced a window of length
n, none means apply_filters raised. -/
def conditioned_v3 (n : ℕ) : Option ℕ :=
  if 30 < n then apply_filters_v3 n else some n

/-! Helper lemmas about the detector step. -/

theorem runDet_nil (th cd off : ℚ) (s : DetState) : runDet th cd off s [] = (s, []) := rfl

theorem runDet_cons (th cd off : ℚ) (s : DetState) (x : DetIn) (xs : List DetIn) :
    runDet th cd off s (x :: xs) =
      ((runDet th cd off (detectStep th cd off s x.m x.b x.t).1 xs).1,
        (detectStep th cd off s x.m x.b x.t).2 ::
          (runDet th cd off (detectStep th cd off s x.m x.b x.t).1 xs).2) := rfl

theorem detectStep_snd (th cd off : ℚ) (s : DetState) (m b now : ℚ) :
    (detectStep th cd off s m b now).2 =
      ((decide (m - b > th) && decide (m > th)) && !s.blink_active &&
        decide (now - s.last_blink_ts ≥ cd)) := rfl

theorem detectStep_emit_iff (th cd off : ℚ) (s : DetState) (m b now : ℚ) :
    (detectStep th cd off s m b now).2 = true ↔
      ((m - b > th ∧ m > th) ∧ s.blink_active = false ∧ now - s.last_blink_ts ≥ cd) := by
  simp [detectStep_snd, Bool.and_eq_true, decide_eq_true_iff, Bool.not_eq_true']
  tauto

theorem detectStep_last_of_emit (th cd off : ℚ) (s : DetState) (m b now : ℚ)
    (h : (detectStep th cd off s m b now).2 = true) :
    (detectStep th cd off s m b now).1.last_blink_ts = now := by
  have h2 : ((decide (m - b > th) && decide (m > th)) && !s.blink_active &&
      decide (now - s.last_blink_ts ≥ cd)) = true := h
  simp only [detectStep, h2]
  split
  · split <;> rfl
  · next h3 => exact absurd trivial h3

theorem detectStep_last_cases (th cd off : ℚ) (s : DetState) (m b now : ℚ) :
    (detectStep th cd off s m b now).1.last_blink_ts = s.last_blink_ts ∨
      (detectStep th cd off s m b now).1.last_blink_ts = now := by
  simp only [detectStep]
  split
  · split <;> exact Or.inr rfl
  · split <;> exact Or.inl rfl

/-! Claim theorems for the core detector step. -/

/-- C1: while the detector state is Active no event is emitted.  For every
sample the emission flag conjoined with the previous Active flag is false, so
blink_pending is set (and last_event_text updated) at most once per
Quiescent-to-Active transition, however many consecutive samples satisfy the
onset condition. -/
theorem active_state_never_emits (th cd off m b now : ℚ) (s : DetState) :
    ((detectStep th cd off s m b now).2 && s.blink_active) = false := by
  obtain ⟨a, ts⟩ := s
  cases a <;> simp [detectStep]

/-- C5: the emission gate of the detector step.  An event fires exactly when
the onset condition (m - b) > onset_uV and m > onset_uV holds, the state is
Quiescent, and the cooldown has elapsed; in particular a sample whose
differential exceeds the threshold but whose absolute magnitude does not, or
conversely, never triggers an event. -/
theorem onset_condition_gates_event (th cd off m b now : ℚ) (s : DetState) :
    (detectStep th cd off s m b now).2 = true ↔
      ((m - b > th ∧ m > th) ∧ s.blink_active = false ∧ now - s.last_blink_ts ≥ cd) :=
  detectStep_emit_iff th cd off s m b now

/-- C2: hysteresis exit.  For onset_uV > 0 and 0 < off_factor < 1, an Active
state returns to Quiescent on a sample exactly when
(m - b) < onset_uV * off_factor; the wall-clock time now plays no role, so the
state can stay Active indefinitely while the magnitude stays elevated. -/
theorem active_exit_iff_below_offset (th cd off m b now : ℚ) (s : DetState)
    (h1 : 0 < th) (h2 : 0 < off) (h3 : off < 1) (ha : s.blink_active = true) :
    ((detectStep th cd off s m b now).1.blink_active = false ↔ m - b < th * off) := by
  by_cases hd : m - b < th * off
  · simp [detectStep, ha, hd]
  · simp [detectStep, ha, hd]

/-- Witness for C2 at a concrete input: threshold 150, off factor 3/10,
cooldown 1/5, Active state with last event at time 0, sample of magnitude 10
on baseline 10 at time 1; the differential 0 is below the offset threshold 45
and the state indeed returns to Quiescent. -/
theorem active_exit_iff_below_offset_witness :
    (0 : ℚ) < 150 ∧ (0 : ℚ) < 3 / 10 ∧ (3 : ℚ) / 10 < 1 ∧
      (DetState.mk true 0).blink_active = true ∧
      ((detectStep 150 (1 / 5) (3 / 10) (DetState.mk true 0) 10 10 1).1.blink_active = false ↔
        (10 : ℚ) - 10 < 150 * (3 / 10)) :=
  ⟨by norm_num, by norm_num, by norm_num, rfl,
    active_exit_iff_below_offset 150 (1 / 5) (3 / 10) 10 10 1 (DetState.mk true 0)
      (by norm_num) (by norm_num) (by norm_num) rfl⟩

/-! Cooldown spacing along traces. -/

theorem runDet_snd_cons (th cd off : ℚ) (s : DetState) (x : DetIn) (xs : List DetIn) :
    (runDet th cd off s (x :: xs)).2 =
      (detectStep th cd off s x.m x.b x.t).2 ::
        (runDet th cd off (detectStep th cd off s x.m x.b x.t).1 xs).2 := rfl

/-- If the stored last_blink_ts is at least c and every sample time of the
trace is at least c, then any emitted event happens at a time of at least
c + cd: the cooldown gate forces it. -/
theorem runDet_emit_time_lb (th cd off : ℚ) (tr : List DetIn) :
    ∀ (s : DetState) (c : ℚ), c ≤ s.last_blink_ts → (∀ x ∈ tr, c ≤ x.t) →
      ∀ (k : ℕ) (x : DetIn), tr.get? k = some x →
        (runDet th cd off s tr).2.get? k = some true → c + cd ≤ x.t := by
  induction tr with
  | nil =>
    intro s c _ _ k x hx _
    simp at hx
  | cons y ys ih =>
    intro s c hc ht k x hx he
    rw [runDet_snd_cons] at he
    cases k with
    | zero =>
      rw [List.get?_cons_zero] at hx he
      obtain rfl := Option.some.inj hx
      have he2 : (detectStep th cd off s y.m y.b y.t).2 = true := Option.some.inj he
      have hgate := (detectStep_emit_iff th cd off s y.m y.b y.t).mp he2
      have hts : y.t - s.last_blink_ts ≥ cd := hgate.2.2
      linarith
    | succ k =>
      rw [List.get?_cons_succ] at hx he
      have hc2 : c ≤ (detectStep th cd off s y.m y.b y.t).1.last_blink_ts := by
        rcases detectStep_last_cases th cd off s y.m y.b y.t with h | h
        · rw [h]; exact hc
        · rw [h]; exact ht y (List.mem_cons_self y ys)
      exact ih _ c hc2 (fun z hz => ht z (List.mem_cons_of_mem y hz)) k x hx he

/-- C3: cooldown.  For cooldown_seconds at least 0 and a trace with
nondecreasing wall-clock times, any two emitted events are at least
cooldown_seconds apart; consequently two onset excursions whose entry times
differ by less than the cooldown can emit at most one event, the second being
suppressed by the cooldown gate against the recorded last-event timestamp. -/
theorem two_events_at_least_cooldown_apart (th cd off : ℚ) (hcd : 0 ≤ cd) (tr : List DetIn) :
    ∀ (s0 : DetState) (i j : ℕ) (xi xj : DetIn),
      tr.Pairwise (fun a b => a.t ≤ b.t) → i < j →
      tr.get? i = some xi → tr.get? j = some xj →
      (runDet th cd off s0 tr).2.get? i = some true →
      (runDet th cd off s0 tr).2.get? j = some true →
      cd ≤ xj.t - xi.t := by
  induction tr with
  | nil => intro s0 i j xi xj _ _ hxi _ _ _; simp at hxi
  | cons y ys ih =>
    intro s0 i j xi xj hmono hij hxi hxj hei hej
    rw [runDet_snd_cons] at hei hej
    cases i with
    | zero =>
      rw [List.get?_cons_zero] at hxi hei
      obtain rfl := Option.some.inj hxi
      have he2 : (detectStep th cd off s0 y.m y.b y.t).2 = true := Option.some.inj hei
      obtain ⟨j2, rfl⟩ : ∃ j2, j = j2 + 1 := ⟨j - 1, by omega⟩
      rw [List.get?_cons_succ] at hxj hej
      have hlast := detectStep_last_of_emit th cd off s0 y.m y.b y.t he2
      have hmem : ∀ x ∈ ys, y.t ≤ x.t := (List.pairwise_cons.mp hmono).1
      have hlb := runDet_emit_time_lb th cd off ys
        (detectStep th cd off s0 y.m y.b y.t).1 y.t (le_of_eq hlast.symm)
        hmem j2 xj hxj hej
      linarith
    | succ i2 =>
      obtain ⟨j2, rfl⟩ : ∃ j2, j = j2 + 1 := ⟨j - 1, by omega⟩
      rw [List.get?_cons_succ] at hxi hxj hei hej
      exact ih _ i2 j2 xi xj (List.pairwise_cons.mp hmono).2 (by omega) hxi hxj hei hej

/-- Concrete trace for the cooldown witness: a spike over baseline at time 1,
a quiet sample at time 6/5, and a second spike at time 2, all on baseline 10
with onset 150. -/
def trSpikes : List DetIn :=
  [DetIn.mk 300 10 1, DetIn.mk 10 10 (6 / 5), DetIn.mk 300 10 2]

/-- Witness for C3 at a concrete input: with onset 150, cooldown 7/20 and off
factor 3/10 the trace trSpikes emits at indices 0 and 2, and the theorem
yields that the two event times are at least the cooldown apart. -/
theorem two_events_at_least_cooldown_apart_witness :
    (0 : ℚ) ≤ 7 / 20 ∧
      trSpikes.Pairwise (fun a b => a.t ≤ b.t) ∧ (0 : ℕ) < 2 ∧
      trSpikes.get? 0 = some (DetIn.mk 300 10 1) ∧
      trSpikes.get? 2 = some (DetIn.mk 300 10 2) ∧
      (runDet 150 (7 / 20) (3 / 10) (DetState.mk false 0) trSpikes).2.get? 0 = some true ∧
      (runDet 150 (7 / 20) (3 / 10) (DetState.mk false 0) trSpikes).2.get? 2 = some true ∧
      (7 : ℚ) / 20 ≤ (DetIn.mk 300 10 2).t - (DetIn.mk 300 10 1).t :=
  ⟨by norm_num, by with_unfolding_all decide, by norm_num, by with_unfolding_all decide,
    by with_unfolding_all decide, by with_unfolding_all decide, by with_unfolding_all decide,
    two_events_at_least_cooldown_apart 150 (7 / 20) (3 / 10) (by norm_num) trSpikes
      (DetState.mk false 0) 0 2 (DetIn.mk 300 10 1) (DetIn.mk 300 10 2)
      (by with_unfolding_all decide) (by norm_num) (by with_unfolding_all decide)
      (by with_unfolding_all decide) (by with_unfolding_all decide)
      (by with_unfolding_all decide)⟩

/-! Warm-up of the baseline window. -/

theorem pushWin_length (cap : ℕ) (w : List ℚ) (v : ℚ) :
    (pushWin cap w v).length = min (w.length + 1) cap := by
  have hlen : (w ++ [v]).length = w.length + 1 := by simp
  simp only [pushWin]
  split
  · next h =>
    rw [List.length_drop, hlen]
    rw [hlen] at h
    omega
  · next h =>
    rw [hlen]
    rw [hlen] at h
    omega

theorem runLoop_snd_cons (cap : ℕ) (th cd off : ℚ) (st : LoopState) (x : LoopIn)
    (xs : List LoopIn) :
    (runLoop cap th cd off st (x :: xs)).2 =
      (loopStep cap th cd off st x).2 ::
        (runLoop cap th cd off (loopStep cap th cd off st x).1 xs).2 := rfl

theorem loopStep_buf (cap : ℕ) (th cd off : ℚ) (st : LoopState) (x : LoopIn) :
    (loopStep cap th cd off st x).1.buf = pushWin cap st.buf x.v := by
  simp only [loopStep]
  split <;> rfl

theorem loopStep_emit_of_short (cap : ℕ) (th cd off : ℚ) (st : LoopState) (x : LoopIn)
    (h : (pushWin cap st.buf x.v).length < cap) :
    (loopStep cap th cd off st x).2 = false := by
  simp only [loopStep]
  split
  · rfl
  · next h2 => exact absurd h h2

/-- C4: warm-up guarantee.  Starting from a baseline buffer holding k samples,
every sample processed while the window has received fewer than cap samples in
total (k plus its position plus one below cap) is appended and then skipped,
emitting no event regardless of its magnitude. -/
theorem no_events_before_window_full (cap : ℕ) (th cd off : ℚ) (tr : List LoopIn) :
    ∀ (st : LoopState) (k i : ℕ), st.buf.length = k → i < tr.length →
      k + i + 1 < cap → (runLoop cap th cd off st tr).2.get? i = some false := by
  induction tr with
  | nil => intro st k i _ hi _; simp at hi
  | cons y ys ih =>
    intro st k i hk hi hfill
    rw [runLoop_snd_cons]
    have hlen : (pushWin cap st.buf y.v).length = k + 1 := by
      rw [pushWin_length, hk]; omega
    cases i with
    | zero =>
      rw [List.get?_cons_zero, loopStep_emit_of_short cap th cd off st y (by omega)]
    | succ i2 =>
      rw [List.get?_cons_succ]
      have hbuf : (loopStep cap th cd off st y).1.buf.length = k + 1 := by
        rw [loopStep_buf, hlen]
      exact ih _ (k + 1) i2 hbuf (by simpa using hi) (by omega)

/-- Witness for C4 at a concrete input: capacity 3, empty initial buffer, a
huge first magnitude; the first sample is appended and skipped, emitting
nothing. -/
theorem no_events_before_window_full_witness :
    (LoopState.mk [] (DetState.mk false 0)).buf.length = 0 ∧ (0 : ℕ) < 1 ∧ 0 + 0 + 1 < 3 ∧
      (runLoop 3 150 (1 / 5) (3 / 10) (LoopState.mk [] (DetState.mk false 0))
        [LoopIn.mk 1000 1]).2.get? 0 = some false :=
  ⟨rfl, by norm_num, by norm_num,
    no_events_before_window_full 3 150 (1 / 5) (3 / 10) [LoopIn.mk 1000 1]
      (LoopState.mk [] (DetState.mk false 0)) 0 0 rfl (by norm_num) (by norm_num)⟩

/-! Calibration claims. -/

/-- C6 (amended): successful calibration with both sample sets non-empty
applies noise_mean + 0.6 * (event_mean - noise_mean) rounded to one decimal
place as the new onset threshold (no further clamping is performed) and
leaves the cooldown setting untouched. -/
theorem calibration_success_applies_rounded_blend (st : CalibState)
    (hb : st.blinks ≠ []) (hn : st.noise ≠ []) :
    (finish_calibration st).2 =
        some (round1 (listMean st.noise + (listMean st.blinks - listMean st.noise) * (6 / 10))) ∧
      (finish_calibration st).1.threshold_uv =
        round1 (listMean st.noise + (listMean st.blinks - listMean st.noise) * (6 / 10)) ∧
      (finish_calibration st).1.cooldown_secs = st.cooldown_secs := by
  simp [finish_calibration, hb, hn]

/-- Witness for C6 at the scenario of the spec: noise samples 20, 22, 18, 19
and event samples 250, 260 give mean 19.75 and 255, and the applied threshold
is exactly 160.9. -/
theorem calibration_success_applies_rounded_blend_witness :
    (CalibState.mk 150 (1 / 5) [20, 22, 18, 19] [250, 260]).blinks ≠ [] ∧
      (CalibState.mk 150 (1 / 5) [20, 22, 18, 19] [250, 260]).noise ≠ [] ∧
      ((finish_calibration (CalibState.mk 150 (1 / 5) [20, 22, 18, 19] [250, 260])).2 =
          some (round1 (listMean [(20 : ℚ), 22, 18, 19] +
            (listMean [(250 : ℚ), 260] - listMean [(20 : ℚ), 22, 18, 19]) * (6 / 10))) ∧
        (finish_calibration (CalibState.mk 150 (1 / 5) [20, 22, 18, 19] [250, 260])).1.threshold_uv =
          round1 (listMean [(20 : ℚ), 22, 18, 19] +
            (listMean [(250 : ℚ), 260] - listMean [(20 : ℚ), 22, 18, 19]) * (6 / 10)) ∧
        (finish_calibration (CalibState.mk 150 (1 / 5) [20, 22, 18, 19] [250, 260])).1.cooldown_secs =
          (CalibState.mk 150 (1 / 5) [20, 22, 18, 19] [250, 260]).cooldown_secs) ∧
      (finish_calibration (CalibState.mk 150 (1 / 5) [20, 22, 18, 19] [250, 260])).1.threshold_uv =
        1609 / 10 :=
  ⟨by with_unfolding_all decide, by with_unfolding_all decide,
    calibration_success_applies_rounded_blend (CalibState.mk 150 (1 / 5) [20, 22, 18, 19] [250, 260])
      (by with_unfolding_all decide) (by with_unfolding_all decide),
    by with_unfolding_all decide⟩

/-- Counterexample to C6 as stated: the applied threshold is the rounded
blend, not the exact blend.  With noise samples 20, 22, 18, 19 and event
samples 250, 260.01 the blend is 160.903 but the applied threshold is 160.9;
moreover with noise sample 0 and event sample 0 the applied threshold is 0.0,
so no clamping to a positive floor takes place either. -/
theorem calibration_blend_not_exact_counterexample :
    (finish_calibration
        (CalibState.mk 150 (1 / 5) [20, 22, 18, 19] [250, 26001 / 100])).1.threshold_uv ≠
        listMean [(20 : ℚ), 22, 18, 19] +
          (listMean [(250 : ℚ), 26001 / 100] - listMean [(20 : ℚ), 22, 18, 19]) * (6 / 10) ∧
      (finish_calibration (CalibState.mk 150 (1 / 5) [(0 : ℚ)] [0])).1.threshold_uv = 0 := by
  constructor
  · with_unfolding_all decide
  · with_unfolding_all decide

/-- C7: calibration with an empty event-sample set returns the failure result
at once and leaves the whole shared state, the onset threshold included,
exactly as it was: no clamping, defaulting or partial update happens on the
failure path. -/
theorem empty_event_set_fails_and_preserves_config (th cdv : ℚ) (ns : List ℚ) :
    finish_calibration (CalibState.mk th cdv ns []) = (CalibState.mk th cdv ns [], none) := by
  simp [finish_calibration]

/-- Counterexample to C8 as stated: on the failure path (empty event-sample
set) the route returns before the reset, so a collected noise sample
survives the call. -/
theorem failed_calibration_retains_noise_counterexample :
    (finish_calibration (CalibState.mk 150 (1 / 5) [5] [])).1.noise ≠ [] := by
  with_unfolding_all decide

/-- C8 (amended): a successful finish-calibration (non-empty event-sample
set) discards both collected sample sets; on the failure path the early
return leaves them untouched instead. -/
theorem successful_calibration_discards_samples (st : CalibState) (hb : st.blinks ≠ []) :
    (finish_calibration st).1.noise = [] ∧ (finish_calibration st).1.blinks = [] := by
  simp [finish_calibration, hb]

/-- Witness for the amended C8 at a concrete input. -/
theorem successful_calibration_discards_samples_witness :
    (CalibState.mk 150 (1 / 5) [5] [250]).blinks ≠ [] ∧
      ((finish_calibration (CalibState.mk 150 (1 / 5) [5] [250])).1.noise = [] ∧
        (finish_calibration (CalibState.mk 150 (1 / 5) [5] [250])).1.blinks = []) :=
  ⟨by with_unfolding_all decide,
    successful_calibration_discards_samples (CalibState.mk 150 (1 / 5) [5] [250])
      (by with_unfolding_all decide)⟩

/-- C10 (amended): calibration with a non-empty event-sample set and an empty
noise-sample set still succeeds, using the default noise mean 30.0, and
applies round(30 + 0.6 * (event_mean - 30), 1) as the new threshold. -/
theorem empty_noise_defaults_to_thirty (st : CalibState)
    (hb : st.blinks ≠ []) (hn : st.noise = []) :
    (finish_calibration st).2 = some (round1 (30 + (listMean st.blinks - 30) * (6 / 10))) ∧
      (finish_calibration st).1.threshold_uv =
        round1 (30 + (listMean st.blinks - 30) * (6 / 10)) := by
  simp [finish_calibration, hb, hn]

/-- Witness for the amended C10 at a concrete input: one event sample of 250
with no noise samples succeeds and applies 30 + 0.6 * 220 = 162.0. -/
theorem empty_noise_defaults_to_thirty_witness :
    (CalibState.mk 150 (1 / 5) [] [250]).blinks ≠ [] ∧
      (CalibState.mk 150 (1 / 5) [] [250]).noise = [] ∧
      ((finish_calibration (CalibState.mk 150 (1 / 5) [] [250])).2 =
          some (round1 (30 + (listMean [(250 : ℚ)] - 30) * (6 / 10))) ∧
        (finish_calibration (CalibState.mk 150 (1 / 5) [] [250])).1.threshold_uv =
          round1 (30 + (listMean [(250 : ℚ)] - 30) * (6 / 10))) ∧
      (finish_calibration (CalibState.mk 150 (1 / 5) [] [250])).1.threshold_uv = 162 :=
  ⟨by with_unfolding_all decide, rfl,
    empty_noise_defaults_to_thirty (CalibState.mk 150 (1 / 5) [] [250])
      (by with_unfolding_all decide) rfl,
    by with_unfolding_all decide⟩

/-- Counterexample to C10 as stated: with an empty noise set the call does
succeed, but the applied threshold is the rounded value, not exactly
30 + 0.6 * (event_mean - 30).  Event samples 250, 249, 250, 250 have mean
249.75, the blend is 161.85, and the applied threshold is 161.8. -/
theorem empty_noise_rounding_counterexample :
    (finish_calibration (CalibState.mk 150 (1 / 5) [] [250, 249, 250, 250])).2 ≠ none ∧
      (finish_calibration (CalibState.mk 150 (1 / 5) [] [250, 249, 250, 250])).1.threshold_uv ≠
        30 + (listMean [(250 : ℚ), 249, 250, 250] - 30) * (6 / 10) := by
  constructor
  · with_unfolding_all decide
  · with_unfolding_all decide

/-! Signal conditioner claim. -/

/-- C9: the guard of app_v3 does not match the padding requirement of the
forward-backward filter.  A window of 30 samples is returned unfiltered, but
a window of 40 samples passes the guard (30 < 40) and the filtfilt call with
padlen 50 raises instead of succeeding; only windows longer than 50 samples
filter successfully. -/
theorem filter_guard_below_padlen :
    conditioned_v3 30 = some 30 ∧ 30 < 40 ∧ conditioned_v3 40 = none ∧
      conditioned_v3 60 = some 60 := by
  decide
